import Mathlib

/-!
Verification of the goomi sports heuristic projection engine
(src/backend/goomi_app.py, sections 10 and 11A).

The engine is embedded shallowly: Python floats become rationals (ℚ),
nullable values become Option, and Python's `round(x, 2)` becomes an
explicit round-half-to-even on hundredths (`round2`).  The module-level
configuration constants are fixed at their documented defaults
(config.yaml defaults in the source).
-/

namespace Goomi

/-- Default configuration constants (goomi_app.py, `PROJ` defaults). -/
def UNDER35_AVG_MAX : ℚ := 27/10

/-- Default value of UNDER35_PCT_MIN. -/
def UNDER35_PCT_MIN : ℚ := 8/10

/-- Default value of FORM_WEIGHT. -/
def FORM_WEIGHT : ℚ := 1

/-- Default value of DEF_WEIGHT. -/
def DEF_WEIGHT : ℚ := 8/10

/-- Default value of HOME_ADV. -/
def HOME_ADV : ℚ := 3/10

/-- Default value of DC_THRESHOLD. -/
def DC_THRESHOLD : ℚ := 8/10

/-- Default value of H2H_UNDER_BOOST. -/
def H2H_UNDER_BOOST : ℚ := 15/100

/-- Default value of H2H_DC_BOOST. -/
def H2H_DC_BOOST : ℚ := 15/100

/-- Clamp a rational into [0, 1]; Python's `min(1.0, max(0.0, x))`. -/
def clamp01 (q : ℚ) : ℚ := min 1 (max 0 q)

/-- Round to the nearest integer, ties to even — the rounding mode of
Python's built-in `round`. -/
def roundHE (x : ℚ) : ℤ :=
  let f := ⌊x⌋
  let r := x - f
  if r < 1/2 then f
  else if 1/2 < r then f + 1
  else if f % 2 = 0 then f else f + 1

/-- Python's `round(x, 2)` on rationals. -/
def round2 (q : ℚ) : ℚ := (roundHE (q * 100) : ℚ) / 100

/-- Python's `round(x, 3)` on rationals. -/
def round3 (q : ℚ) : ℚ := (roundHE (q * 1000) : ℚ) / 1000

/-- One side of a fixture as the engine reads it: `teams.home` /
`teams.away` with a nullable id and the tri-state winner flag. -/
structure TeamInfo where
  id : Option ℤ
  winner : Option Bool
deriving DecidableEq, Repr

/-- A fixture as consumed by the statistics functions: the two team
entries and the two nullable goal counts (`goals.home`, `goals.away`). -/
structure Fixture where
  home : TeamInfo
  away : TeamInfo
  goals_home : Option ℤ
  goals_away : Option ℤ
deriving DecidableEq, Repr

/-- Result record of `team_stats_from_last`. -/
structure TeamStats where
  games : ℕ
  avg_for : ℚ
  avg_against : ℚ
  avg_total : ℚ
  pct_under35 : ℚ
  form_points : ℚ
  conceded_avg : ℚ
deriving DecidableEq, Repr

/-- Result record of `h2h_stats`. -/
structure H2HStats where
  games : ℕ
  pct_under35 : ℚ
  home_wins : ℕ
  away_wins : ℕ
  draws : ℕ
  dominance : String
deriving DecidableEq, Repr

/-- Loop accumulator of `team_stats_from_last` (goomi_app.py lines
1201-1227): games, goals_for, goals_against, total_goals, conceded_sum,
under35_count, form_points. -/
@[ext] structure FormAcc where
  games : ℕ
  goals_for : ℚ
  goals_against : ℚ
  total_goals : ℚ
  conceded_sum : ℚ
  under35_count : ℕ
  form_points : ℕ
deriving DecidableEq, Repr

/-- Form points contributed by one fixture: win = 3, draw (winner flag
null) = 1, loss = 0. -/
def winPoints (w : Option Bool) : ℕ :=
  match w with
  | some true => 3
  | none => 1
  | some false => 0

/-- One iteration of the loop of `team_stats_from_last`: skip a fixture
with a null goal, pick the side `team_id` played (home branch first, as
in the source's if/elif), and accumulate. -/
def formStep (team_id : ℤ) (acc : FormAcc) (fx : Fixture) : FormAcc :=
  match fx.goals_home, fx.goals_away with
  | some gh, some ga =>
    if fx.home.id = some team_id then
      ⟨acc.games + 1, acc.goals_for + gh, acc.goals_against + ga,
        acc.total_goals + (gh + ga), acc.conceded_sum + ga,
        acc.under35_count + (if gh + ga < 4 then 1 else 0),
        acc.form_points + winPoints fx.home.winner⟩
    else if fx.away.id = some team_id then
      ⟨acc.games + 1, acc.goals_for + ga, acc.goals_against + gh,
        acc.total_goals + (gh + ga), acc.conceded_sum + gh,
        acc.under35_count + (if gh + ga < 4 then 1 else 0),
        acc.form_points + winPoints fx.away.winner⟩
    else acc
  | _, _ => acc

/-- The additive contribution of a single fixture to the accumulator of
`team_stats_from_last` (zero when the fixture is skipped). -/
def contrib (team_id : ℤ) (fx : Fixture) : FormAcc :=
  match fx.goals_home, fx.goals_away with
  | some gh, some ga =>
    if fx.home.id = some team_id then
      ⟨1, gh, ga, gh + ga, ga, if gh + ga < 4 then 1 else 0,
        winPoints fx.home.winner⟩
    else if fx.away.id = some team_id then
      ⟨1, ga, gh, gh + ga, gh, if gh + ga < 4 then 1 else 0,
        winPoints fx.away.winner⟩
    else ⟨0, 0, 0, 0, 0, 0, 0⟩
  | _, _ => ⟨0, 0, 0, 0, 0, 0, 0⟩

/-- A fixture is usable for a team when both goal counts are known and
the team appears on one of the two sides — exactly the fixtures the loop
of `team_stats_from_last` does not skip. -/
def usable (fx : Fixture) (team_id : ℤ) : Prop :=
  fx.goals_home ≠ none ∧ fx.goals_away ≠ none ∧
    (fx.home.id = some team_id ∨ fx.away.id = some team_id)

instance (fx : Fixture) (team_id : ℤ) : Decidable (usable fx team_id) := by
  unfold usable; infer_instance

/-- goomi_app.py `team_stats_from_last` (lines 1200-1238): fold the loop
over the fixture list; if no game was usable return the all-zero record,
otherwise divide every accumulator by the number of usable games. -/
def team_stats_from_last (fixtures : List Fixture) (team_id : ℤ) : TeamStats :=
  let acc := fixtures.foldl (formStep team_id) ⟨0, 0, 0, 0, 0, 0, 0⟩
  if acc.games = 0 then ⟨0, 0, 0, 0, 0, 0, 0⟩
  else
    ⟨acc.games, acc.goals_for / acc.games, acc.goals_against / acc.games,
      acc.total_goals / acc.games, (acc.under35_count : ℚ) / acc.games,
      (acc.form_points : ℚ) / acc.games, acc.conceded_sum / acc.games⟩

/-- Loop accumulator of `h2h_stats`. -/
@[ext] structure H2HAcc where
  games : ℕ
  under35 : ℕ
  home_wins : ℕ
  away_wins : ℕ
  draws : ℕ
deriving DecidableEq, Repr

/-- One iteration of the loop of `h2h_stats` (goomi_app.py lines
1240-1255): skip null goals; a true home winner flag counts a home win,
else a true away winner flag counts an away win, else a draw. -/
def h2hStep (acc : H2HAcc) (fx : Fixture) : H2HAcc :=
  match fx.goals_home, fx.goals_away with
  | some gh, some ga =>
    ⟨acc.games + 1,
      acc.under35 + (if gh + ga < 4 then 1 else 0),
      acc.home_wins + (if fx.home.winner = some true then 1 else 0),
      acc.away_wins +
        (if fx.home.winner ≠ some true ∧ fx.away.winner = some true then 1 else 0),
      acc.draws +
        (if fx.home.winner ≠ some true ∧ fx.away.winner ≠ some true then 1 else 0)⟩
  | _, _ => acc

/-- A meeting has known goals when neither goal count is null. -/
def goalsKnown (fx : Fixture) : Prop :=
  fx.goals_home ≠ none ∧ fx.goals_away ≠ none

instance (fx : Fixture) : Decidable (goalsKnown fx) := by
  unfold goalsKnown; infer_instance

/-- goomi_app.py `h2h_stats` (lines 1240-1255).  The two id arguments are
accepted but, as in the source, never consulted. -/
def h2h_stats (fixtures_h2h : List Fixture) (home_id away_id : ℤ) : H2HStats :=
  let _ := home_id
  let _ := away_id
  let acc := fixtures_h2h.foldl h2hStep ⟨0, 0, 0, 0, 0⟩
  ⟨acc.games,
    if acc.games = 0 then 0 else (acc.under35 : ℚ) / acc.games,
    acc.home_wins, acc.away_wins, acc.draws,
    if acc.away_wins < acc.home_wins then "home"
    else if acc.home_wins < acc.away_wins then "away" else "none"⟩

/-- Python's `h2h.get("games", 0)` on an optional stats record. -/
def h2h_games (h2h : Option H2HStats) : ℕ :=
  match h2h with
  | some h => h.games
  | none => 0

/-- Python's `h2h.get("pct_under35", 0.0)` on an optional stats record. -/
def h2h_pct (h2h : Option H2HStats) : ℚ :=
  match h2h with
  | some h => h.pct_under35
  | none => 0

/-- Python's `h2h.get("dominance")` on an optional stats record. -/
def h2h_dom (h2h : Option H2HStats) : Option String :=
  match h2h with
  | some h => some h.dominance
  | none => none

/-- Home side score of `make_projection` and `_obv_make_strength`:
form_points * FORM_WEIGHT - conceded_avg * DEF_WEIGHT + HOME_ADV. -/
def home_score_of (s : TeamStats) : ℚ :=
  s.form_points * FORM_WEIGHT - s.conceded_avg * DEF_WEIGHT + HOME_ADV

/-- Away side score: the same expression without the home advantage. -/
def away_score_of (s : TeamStats) : ℚ :=
  s.form_points * FORM_WEIGHT - s.conceded_avg * DEF_WEIGHT

/-- The relative-strength delta: home score minus away score. -/
def delta_of (stats_home stats_away : TeamStats) : ℚ :=
  home_score_of stats_home - away_score_of stats_away

/-- Combined average total goals (goomi_app.py lines 1259-1264): the mean
of the two sides' avg_total when both have games, otherwise 0. -/
def combined_avg_total (stats_home stats_away : TeamStats) : ℚ :=
  if stats_home.games ≠ 0 ∧ stats_away.games ≠ 0 then
    (stats_home.avg_total + stats_away.avg_total) / 2
  else 0

/-- Combined under-3.5 percentage, analogous to `combined_avg_total`. -/
def combined_pct_under (stats_home stats_away : TeamStats) : ℚ :=
  if stats_home.games ≠ 0 ∧ stats_away.games ≠ 0 then
    (stats_home.pct_under35 + stats_away.pct_under35) / 2
  else 0

/-- The `under_ok` boolean of `make_projection` (lines 1266-1270). -/
def under_ok (stats_home stats_away : TeamStats) : Bool :=
  decide (combined_avg_total stats_home stats_away ≤ UNDER35_AVG_MAX) &&
  decide (UNDER35_PCT_MIN ≤ combined_pct_under stats_home stats_away) &&
  decide (max stats_home.avg_total stats_away.avg_total < 32/10)

/-- The pre-boost `conf_under` of `make_projection` (lines 1272-1282):
0 unless both sides have games, else a clamped affine score. -/
def conf_under_base (stats_home stats_away : TeamStats) : ℚ :=
  if stats_home.games ≠ 0 ∧ stats_away.games ≠ 0 then
    min 1 (max 0 (1/2
      + (UNDER35_AVG_MAX - combined_avg_total stats_home stats_away) * (3/10)
      + (combined_pct_under stats_home stats_away - UNDER35_PCT_MIN) * (4/10)))
  else 0

/-- The decisive double-chance label (lines 1290-1296). -/
def dc_label_of (delta : ℚ) : Option String :=
  if DC_THRESHOLD ≤ delta then some "1X"
  else if DC_THRESHOLD ≤ -delta then some "X2"
  else none

/-- The decisive double-chance side, set together with the label. -/
def dc_side_of (delta : ℚ) : Option String :=
  if DC_THRESHOLD ≤ delta then some "home"
  else if DC_THRESHOLD ≤ -delta then some "away"
  else none

/-- The pre-boost decisive confidence: min(1, 0.5 + |branch delta|/2) in
the two decisive branches, 0 otherwise. -/
def dc_conf_of (delta : ℚ) : ℚ :=
  if DC_THRESHOLD ≤ delta then min 1 (1/2 + delta / 2)
  else if DC_THRESHOLD ≤ -delta then min 1 (1/2 + (-delta) / 2)
  else 0

/-- H2H reinforcement of `conf_under` (lines 1299-1301): fires only when
the pair has games, the under classification fired, and the pair's
under percentage clears the threshold. -/
def conf_under_boosted (stats_home stats_away : TeamStats)
    (h2h : Option H2HStats) : ℚ :=
  if 0 < h2h_games h2h ∧ under_ok stats_home stats_away = true ∧
      UNDER35_PCT_MIN ≤ h2h_pct h2h then
    min 1 (conf_under_base stats_home stats_away + H2H_UNDER_BOOST)
  else conf_under_base stats_home stats_away

/-- H2H reinforcement of the decisive confidence (lines 1302-1305):
fires when the pair has games and its dominance matches the label. -/
def dc_conf_boosted (label : Option String) (conf : ℚ)
    (h2h : Option H2HStats) : ℚ :=
  if 0 < h2h_games h2h ∧ label = some "1X" ∧ h2h_dom h2h = some "home" then
    min 1 (conf + H2H_DC_BOOST)
  else if 0 < h2h_games h2h ∧ label = some "X2" ∧ h2h_dom h2h = some "away" then
    min 1 (conf + H2H_DC_BOOST)
  else conf

/-- The clamped additive boost operation used by the H2H reinforcement:
c ↦ min(1, c + amt). -/
def h2hBoost (amt c : ℚ) : ℚ := min 1 (c + amt)

/-- Return record of `make_projection` (lines 1322-1336).  The nested
`combined` dict is flattened into two fields. -/
structure Projection where
  under35 : Bool
  conf_under35 : ℚ
  double_chance : Option String
  conf_double_chance : ℚ
  dc_side : Option String
  lean_double_chance : String
  lean_conf_double_chance : ℚ
  lean_dc_side : String
  combined_avg_total_goals : ℚ
  combined_pct_under35 : ℚ
deriving DecidableEq, Repr

/-- goomi_app.py `make_projection` (lines 1257-1336), assembled from the
block helpers above; every confidence is rounded to 2 decimals at the
return boundary, exactly as in the source. -/
def make_projection (stats_home stats_away : TeamStats)
    (h2h : Option H2HStats) : Projection :=
  let delta := delta_of stats_home stats_away
  { under35 := under_ok stats_home stats_away
    conf_under35 := round2 (conf_under_boosted stats_home stats_away h2h)
    double_chance := dc_label_of delta
    conf_double_chance :=
      round2 (dc_conf_boosted (dc_label_of delta) (dc_conf_of delta) h2h)
    dc_side := dc_side_of delta
    lean_double_chance := if 0 ≤ delta then "1X" else "X2"
    lean_conf_double_chance := round2 (min (49/100) (max (1/10) (|delta| / 2)))
    lean_dc_side := if 0 ≤ delta then "home" else "away"
    combined_avg_total_goals := round2 (combined_avg_total stats_home stats_away)
    combined_pct_under35 := round2 (combined_pct_under stats_home stats_away) }

/-- Favored side of `_obv_make_strength`: home on a non-negative delta. -/
def obv_side_of (delta : ℚ) : String :=
  if 0 ≤ delta then "home" else "away"

/-- Base strength of `_obv_make_strength`: |delta|/2 clamped to [0, 1]. -/
def obv_base_strength (delta : ℚ) : ℚ := min 1 (max 0 (|delta| / 2))

/-- Strength after the light H2H reinforcement (goomi_app.py lines
1461-1466): +0.1, clamped to 1, when the pair has games and its
dominance matches the favored side. -/
def obv_strength (delta : ℚ) (h2h : Option H2HStats) : ℚ :=
  if 0 < h2h_games h2h ∧
      ((obv_side_of delta = "home" ∧ h2h_dom h2h = some "home") ∨
       (obv_side_of delta = "away" ∧ h2h_dom h2h = some "away")) then
    min 1 (obv_base_strength delta + 1/10)
  else obv_base_strength delta

/-- goomi_app.py `_obv_make_strength` (lines 1445-1468): returns the
favored side, the strength rounded to 2 decimals, and the raw delta. -/
def _obv_make_strength (stats_home stats_away : TeamStats)
    (h2h : Option H2HStats) : String × ℚ × ℚ :=
  let delta := delta_of stats_home stats_away
  (obv_side_of delta, round2 (obv_strength delta h2h), delta)

/-- A fixture of the requested day as `obvious_games_calc` reads it:
nullable team ids and the two display names. -/
structure DayFixture where
  hid : Option ℤ
  aid : Option ℤ
  hname : String
  aname : String
deriving DecidableEq, Repr

/-- One kept row of `obvious_games_calc` (display metadata that the
engine merely echoes is omitted). -/
structure ObviousEntry where
  home : String
  away : String
  favorite_side : String
  favorite_name : String
  strength : ℚ
  delta_raw : ℚ
deriving DecidableEq, Repr

/-- Per-fixture body of the loop of `obvious_games_calc` (lines
1510-1543): skip fixtures with a missing or zero team id (Python
truthiness of `hid and aid`), fetch recent fixtures and head-to-head via
the injected collaborators, and score with `_obv_make_strength`.  When
the head-to-head list is empty the source passes the bare dict
`{"games": 0}`, which reads back games = 0 and dominance None — the
same observable values as passing no record at all, which is how it is
modelled here. -/
def obv_entry (fetchLast : ℤ → List Fixture)
    (fetchH2H : ℤ → ℤ → List Fixture) (fx : DayFixture) : Option ObviousEntry :=
  match fx.hid, fx.aid with
  | some hid, some aid =>
    if hid = 0 ∨ aid = 0 then none
    else
      let s_home := team_stats_from_last (fetchLast hid) hid
      let s_away := team_stats_from_last (fetchLast aid) aid
      let h2hList := fetchH2H hid aid
      let h2h : Option H2HStats :=
        if h2hList.isEmpty then none else some (h2h_stats h2hList hid aid)
      let delta := delta_of s_home s_away
      some
        { home := fx.hname
          away := fx.aname
          favorite_side := obv_side_of delta
          favorite_name := if obv_side_of delta = "home" then fx.hname else fx.aname
          strength := round2 (obv_strength delta h2h)
          delta_raw := round3 delta }
  | _, _ => none

/-- Stable descending insertion by strength: an element passes over
strictly stronger rows and lands before the first row that is not
stronger, so rows of equal strength keep their relative order. -/
def insertDesc (r : ObviousEntry) : List ObviousEntry → List ObviousEntry
  | [] => [r]
  | x :: xs => if r.strength < x.strength then x :: insertDesc r xs else r :: x :: xs

/-- Stable sort by strength descending — the behaviour of Python's
`list.sort(key=..., reverse=True)`, which is guaranteed stable. -/
def sortByStrengthDesc : List ObviousEntry → List ObviousEntry
  | [] => []
  | x :: xs => insertDesc x (sortByStrengthDesc xs)

/-- goomi_app.py `obvious_games_calc` (lines 1485-1545) with the two
network collaborators abstracted as functions: score every fixture of
the day, keep the rows whose strength reaches `min_strength`, and sort
them by strength descending. -/
def obvious_games_calc (fetchLast : ℤ → List Fixture)
    (fetchH2H : ℤ → ℤ → List Fixture) (all_fixtures : List DayFixture)
    (min_strength : ℚ) : List ObviousEntry :=
  sortByStrengthDesc
    ((all_fixtures.filterMap (obv_entry fetchLast fetchH2H)).filter
      (fun r => decide (min_strength ≤ r.strength)))

/-- Sample stats: the all-zero record. -/
def statsZero : TeamStats := ⟨0, 0, 0, 0, 0, 0, 0⟩

/-- Sample stats: perfect form, nothing conceded (spec scenario B home). -/
def statsStrongHome : TeamStats := ⟨5, 2, 0, 2, 1, 3, 0⟩

/-- Sample stats: no points, two conceded per game (scenario B away). -/
def statsWeakAway : TeamStats := ⟨5, 0, 2, 2, 1, 0, 2⟩

/-- Sample stats: middling form, one conceded per game. -/
def statsEven : TeamStats := ⟨5, 1, 1, 2, 1, 1, 1⟩

/-- Sample fixture with null goals (not yet played). -/
def fxNullGoals : Fixture := ⟨⟨some 1, none⟩, ⟨some 2, none⟩, none, none⟩

/-- Sample finished fixture: team 1 beats team 2 at home, 2-0. -/
def fxHomeWin : Fixture := ⟨⟨some 1, some true⟩, ⟨some 2, some false⟩, some 2, some 0⟩

/-- Sample finished fixture: a 1-1 draw between teams 1 and 2. -/
def fxDraw : Fixture := ⟨⟨some 1, none⟩, ⟨some 2, none⟩, some 1, some 1⟩

/-- Sample day fixture with valid ids. -/
def dayFx : DayFixture := ⟨some 1, some 2, "A", "B"⟩

/-- Degenerate recent-fixtures collaborator: nothing on record. -/
def noFixtures : ℤ → List Fixture := fun _ => []

/-- Degenerate head-to-head collaborator: nothing on record. -/
def noH2H : ℤ → ℤ → List Fixture := fun _ _ => []

lemma roundHE_ge_floor (x : ℚ) : ⌊x⌋ ≤ roundHE x := by
  simp only [roundHE]
  split_ifs <;> omega

lemma roundHE_le_floor_add_one (x : ℚ) : roundHE x ≤ ⌊x⌋ + 1 := by
  simp only [roundHE]
  split_ifs <;> omega

lemma roundHE_mono {x y : ℚ} (h : x ≤ y) : roundHE x ≤ roundHE y := by
  rcases lt_or_eq_of_le (Int.floor_mono h) with hf | hf
  · calc roundHE x ≤ ⌊x⌋ + 1 := roundHE_le_floor_add_one x
      _ ≤ ⌊y⌋ := by omega
      _ ≤ roundHE y := roundHE_ge_floor y
  · simp only [roundHE, ← hf]
    split_ifs <;> first | omega | linarith

lemma round2_mono {x y : ℚ} (h : x ≤ y) : round2 x ≤ round2 y := by
  unfold round2
  have h2 : roundHE (x * 100) ≤ roundHE (y * 100) := roundHE_mono (by linarith)
  have h3 : ((roundHE (x * 100) : ℤ) : ℚ) ≤ ((roundHE (y * 100) : ℤ) : ℚ) := by
    exact_mod_cast h2
  linarith

lemma round2_zero : round2 0 = 0 := by norm_num [round2, roundHE]

lemma round2_one : round2 1 = 1 := by norm_num [round2, roundHE]

lemma round2_tenth : round2 (1/10) = 1/10 := by norm_num [round2, roundHE]

lemma round2_forty_nine : round2 (49/100) = 49/100 := by
  norm_num [round2, roundHE]

lemma round2_nine_tenths : round2 (9/10) = 9/10 := by
  norm_num [round2, roundHE]

lemma formStep_eq (t : ℤ) (acc : FormAcc) (fx : Fixture) :
    formStep t acc fx =
      ⟨acc.games + (contrib t fx).games,
       acc.goals_for + (contrib t fx).goals_for,
       acc.goals_against + (contrib t fx).goals_against,
       acc.total_goals + (contrib t fx).total_goals,
       acc.conceded_sum + (contrib t fx).conceded_sum,
       acc.under35_count + (contrib t fx).under35_count,
       acc.form_points + (contrib t fx).form_points⟩ := by
  unfold formStep contrib
  rcases hh : fx.goals_home with _ | gh
  · ext <;> simp
  · rcases ha : fx.goals_away with _ | ga
    · ext <;> simp
    · split_ifs <;> ext <;> simp

lemma foldl_formStep (t : ℤ) (l : List Fixture) : ∀ acc : FormAcc,
    l.foldl (formStep t) acc =
      ⟨acc.games + (l.map (fun fx => (contrib t fx).games)).sum,
       acc.goals_for + (l.map (fun fx => (contrib t fx).goals_for)).sum,
       acc.goals_against + (l.map (fun fx => (contrib t fx).goals_against)).sum,
       acc.total_goals + (l.map (fun fx => (contrib t fx).total_goals)).sum,
       acc.conceded_sum + (l.map (fun fx => (contrib t fx).conceded_sum)).sum,
       acc.under35_count + (l.map (fun fx => (contrib t fx).under35_count)).sum,
       acc.form_points + (l.map (fun fx => (contrib t fx).form_points)).sum⟩ := by
  induction l with
  | nil => intro acc; ext <;> simp
  | cons x xs ih =>
    intro acc
    rw [List.foldl_cons, ih, formStep_eq]
    ext <;> simp <;> ring

lemma contrib_of_not_usable {fx : Fixture} {t : ℤ} (h : ¬ usable fx t) :
    contrib t fx = ⟨0, 0, 0, 0, 0, 0, 0⟩ := by
  unfold usable at h
  push_neg at h
  unfold contrib
  rcases hh : fx.goals_home with _ | gh
  · rfl
  · rcases ha : fx.goals_away with _ | ga
    · rfl
    · have hid := h (by simp [hh]) (by simp [ha])
      simp [hid.1, hid.2]

lemma h2hStep_games (acc : H2HAcc) (fx : Fixture) :
    (h2hStep acc fx).games = acc.games + (if goalsKnown fx then 1 else 0) := by
  obtain ⟨th, ta, gh, ga⟩ := fx
  unfold h2hStep goalsKnown
  rcases gh with _ | gh <;> rcases ga with _ | ga <;> simp

lemma h2hStep_home_wins (acc : H2HAcc) (fx : Fixture) :
    (h2hStep acc fx).home_wins = acc.home_wins +
      (if goalsKnown fx ∧ fx.home.winner = some true then 1 else 0) := by
  obtain ⟨th, ta, gh, ga⟩ := fx
  unfold h2hStep goalsKnown
  rcases gh with _ | gh <;> rcases ga with _ | ga <;> simp

lemma h2hStep_away_wins (acc : H2HAcc) (fx : Fixture) :
    (h2hStep acc fx).away_wins = acc.away_wins +
      (if goalsKnown fx ∧ fx.home.winner ≠ some true ∧ fx.away.winner = some true
        then 1 else 0) := by
  obtain ⟨th, ta, gh, ga⟩ := fx
  unfold h2hStep goalsKnown
  rcases gh with _ | gh <;> rcases ga with _ | ga <;> simp

lemma h2hStep_draws (acc : H2HAcc) (fx : Fixture) :
    (h2hStep acc fx).draws = acc.draws +
      (if goalsKnown fx ∧ fx.home.winner ≠ some true ∧ fx.away.winner ≠ some true
        then 1 else 0) := by
  obtain ⟨th, ta, gh, ga⟩ := fx
  unfold h2hStep goalsKnown
  rcases gh with _ | gh <;> rcases ga with _ | ga <;> simp

lemma foldl_h2hStep_games (l : List Fixture) : ∀ acc : H2HAcc,
    (l.foldl h2hStep acc).games =
      acc.games + l.countP (fun fx => decide (goalsKnown fx)) := by
  induction l with
  | nil => intro acc; simp
  | cons x xs ih =>
    intro acc
    rw [List.foldl_cons, ih, h2hStep_games, List.countP_cons]
    by_cases h : goalsKnown x <;> simp [h] <;> omega

lemma foldl_h2hStep_home_wins (l : List Fixture) : ∀ acc : H2HAcc,
    (l.foldl h2hStep acc).home_wins = acc.home_wins +
      l.countP (fun fx => decide (goalsKnown fx ∧ fx.home.winner = some true)) := by
  induction l with
  | nil => intro acc; simp
  | cons x xs ih =>
    intro acc
    rw [List.foldl_cons, ih, h2hStep_home_wins, List.countP_cons]
    by_cases h : goalsKnown x ∧ x.home.winner = some true <;> simp [h] <;> omega

lemma foldl_h2hStep_away_wins (l : List Fixture) : ∀ acc : H2HAcc,
    (l.foldl h2hStep acc).away_wins = acc.away_wins +
      l.countP (fun fx => decide
        (goalsKnown fx ∧ fx.home.winner ≠ some true ∧ fx.away.winner = some true)) := by
  induction l with
  | nil => intro acc; simp
  | cons x xs ih =>
    intro acc
    rw [List.foldl_cons, ih, h2hStep_away_wins, List.countP_cons]
    by_cases h : goalsKnown x ∧ x.home.winner ≠ some true ∧ x.away.winner = some true <;>
      simp [h] <;> omega

lemma foldl_h2hStep_draws (l : List Fixture) : ∀ acc : H2HAcc,
    (l.foldl h2hStep acc).draws = acc.draws +
      l.countP (fun fx => decide
        (goalsKnown fx ∧ fx.home.winner ≠ some true ∧ fx.away.winner ≠ some true)) := by
  induction l with
  | nil => intro acc; simp
  | cons x xs ih =>
    intro acc
    rw [List.foldl_cons, ih, h2hStep_draws, List.countP_cons]
    by_cases h : goalsKnown x ∧ x.home.winner ≠ some true ∧ x.away.winner ≠ some true <;>
      simp [h] <;> omega

lemma ite_known_split (x : Fixture) :
    (if decide (goalsKnown x) then (1 : ℕ) else 0) =
      (if decide (goalsKnown x ∧ x.home.winner = some true) then (1 : ℕ) else 0) +
      (if decide (goalsKnown x ∧ x.home.winner ≠ some true ∧
          x.away.winner = some true) then (1 : ℕ) else 0) +
      (if decide (goalsKnown x ∧ x.home.winner ≠ some true ∧
          x.away.winner ≠ some true) then (1 : ℕ) else 0) := by
  by_cases h1 : goalsKnown x <;> by_cases h2 : x.home.winner = some true <;>
    by_cases h3 : x.away.winner = some true <;> simp [h1, h2, h3] <;> omega

lemma countP_known_split (l : List Fixture) :
    l.countP (fun fx => decide (goalsKnown fx)) =
      l.countP (fun fx => decide (goalsKnown fx ∧ fx.home.winner = some true)) +
      l.countP (fun fx => decide
        (goalsKnown fx ∧ fx.home.winner ≠ some true ∧ fx.away.winner = some true)) +
      l.countP (fun fx => decide
        (goalsKnown fx ∧ fx.home.winner ≠ some true ∧ fx.away.winner ≠ some true)) := by
  induction l with
  | nil => simp
  | cons x xs ih =>
    simp only [List.countP_cons]
    rw [ih]
    have hx := ite_known_split x
    omega

/-- C1: for every fixture list and team id such that no fixture in the
list is usable for that team, team_stats_from_last returns the record
with games = 0 and every averaged field exactly 0. -/
theorem team_stats_zero_of_no_usable (fixtures : List Fixture) (team_id : ℤ)
    (h : ∀ fx ∈ fixtures, ¬ usable fx team_id) :
    team_stats_from_last fixtures team_id = ⟨0, 0, 0, 0, 0, 0, 0⟩ := by
  have hz : ∀ fx ∈ fixtures, contrib team_id fx = ⟨0, 0, 0, 0, 0, 0, 0⟩ :=
    fun fx hfx => contrib_of_not_usable (h fx hfx)
  have key : fixtures.foldl (formStep team_id) ⟨0, 0, 0, 0, 0, 0, 0⟩ =
      ⟨0, 0, 0, 0, 0, 0, 0⟩ := by
    rw [foldl_formStep]
    ext <;> simp <;>
      · apply List.sum_eq_zero
        intro v hv
        simp only [List.mem_map] at hv
        obtain ⟨fx, hfx, rfl⟩ := hv
        rw [hz fx hfx]
  simp [team_stats_from_last, key]

/-- Witness for C1 at a concrete input: a single not-yet-played fixture. -/
theorem team_stats_zero_of_no_usable_witness :
    (∀ fx ∈ [fxNullGoals], ¬ usable fx 1) ∧
      team_stats_from_last [fxNullGoals] 1 = ⟨0, 0, 0, 0, 0, 0, 0⟩ :=
  ⟨by decide, team_stats_zero_of_no_usable [fxNullGoals] 1 (by decide)⟩

/-- C8: team_stats_from_last is invariant under permutation of the input
fixture list — the order of input fixtures does not affect any field. -/
theorem team_stats_perm_invariant (l₁ l₂ : List Fixture) (team_id : ℤ)
    (h : l₁.Perm l₂) :
    team_stats_from_last l₁ team_id = team_stats_from_last l₂ team_id := by
  have key : l₁.foldl (formStep team_id) ⟨0, 0, 0, 0, 0, 0, 0⟩ =
      l₂.foldl (formStep team_id) ⟨0, 0, 0, 0, 0, 0, 0⟩ := by
    rw [foldl_formStep, foldl_formStep]
    ext <;> simp <;> exact List.Perm.sum_eq (h.map _)
  simp only [team_stats_from_last, key]

/-- Witness for C8: swapping two concrete fixtures leaves the stats
unchanged. -/
theorem team_stats_perm_invariant_witness :
    ([fxHomeWin, fxDraw].Perm [fxDraw, fxHomeWin]) ∧
      team_stats_from_last [fxHomeWin, fxDraw] 1 =
        team_stats_from_last [fxDraw, fxHomeWin] 1 :=
  ⟨List.Perm.swap fxDraw fxHomeWin [],
    team_stats_perm_invariant _ _ 1 (List.Perm.swap fxDraw fxHomeWin [])⟩

/-- C10: h2h_stats partitions the counted meetings exactly: games equals
homeWins + awayWins + draws; games counts exactly the meetings with
known goals; a win is attributed only on a true winner flag, home side
checked first; a meeting whose two winner flags are both not true is a
draw regardless of the goal counts; and a meeting with a null goal on
either side is counted in none of the four counters. -/
theorem h2h_stats_partition (meetings : List Fixture) (home_id away_id : ℤ) :
    (h2h_stats meetings home_id away_id).games =
        (h2h_stats meetings home_id away_id).home_wins +
        (h2h_stats meetings home_id away_id).away_wins +
        (h2h_stats meetings home_id away_id).draws ∧
    (h2h_stats meetings home_id away_id).games =
        meetings.countP (fun fx => decide (goalsKnown fx)) ∧
    (h2h_stats meetings home_id away_id).home_wins =
        meetings.countP (fun fx => decide (goalsKnown fx ∧ fx.home.winner = some true)) ∧
    (h2h_stats meetings home_id away_id).away_wins =
        meetings.countP (fun fx => decide
          (goalsKnown fx ∧ fx.home.winner ≠ some true ∧ fx.away.winner = some true)) ∧
    (h2h_stats meetings home_id away_id).draws =
        meetings.countP (fun fx => decide
          (goalsKnown fx ∧ fx.home.winner ≠ some true ∧ fx.away.winner ≠ some true)) := by
  have hg : (meetings.foldl h2hStep ⟨0, 0, 0, 0, 0⟩).games =
      meetings.countP (fun fx => decide (goalsKnown fx)) := by
    rw [foldl_h2hStep_games]; simp
  have hw : (meetings.foldl h2hStep ⟨0, 0, 0, 0, 0⟩).home_wins =
      meetings.countP (fun fx => decide
        (goalsKnown fx ∧ fx.home.winner = some true)) := by
    rw [foldl_h2hStep_home_wins]; simp
  have ha : (meetings.foldl h2hStep ⟨0, 0, 0, 0, 0⟩).away_wins =
      meetings.countP (fun fx => decide
        (goalsKnown fx ∧ fx.home.winner ≠ some true ∧
          fx.away.winner = some true)) := by
    rw [foldl_h2hStep_away_wins]; simp
  have hd : (meetings.foldl h2hStep ⟨0, 0, 0, 0, 0⟩).draws =
      meetings.countP (fun fx => decide
        (goalsKnown fx ∧ fx.home.winner ≠ some true ∧
          fx.away.winner ≠ some true)) := by
    rw [foldl_h2hStep_draws]; simp
  refine ⟨?_, ?_, ?_, ?_, ?_⟩ <;> simp only [h2h_stats]
  · rw [hg, hw, ha, hd]; exact countP_known_split meetings
  · exact hg
  · exact hw
  · exact ha
  · exact hd

lemma combined_avg_total_zero {sh sa : TeamStats} (hh : sh.games = 0) :
    combined_avg_total sh sa = 0 := by
  simp [combined_avg_total, hh]

lemma combined_pct_under_zero {sh sa : TeamStats} (hh : sh.games = 0) :
    combined_pct_under sh sa = 0 := by
  simp [combined_pct_under, hh]

lemma under_ok_zero {sh sa : TeamStats} (hh : sh.games = 0) :
    under_ok sh sa = false := by
  simp only [under_ok, combined_pct_under_zero hh]
  norm_num [UNDER35_PCT_MIN]

lemma dc_conf_boosted_none (label : Option String) (conf : ℚ) :
    dc_conf_boosted label conf none = conf := by
  simp [dc_conf_boosted, h2h_games]

lemma clamp01_of_nonneg {x : ℚ} (h : 0 ≤ x) : clamp01 x = min 1 x := by
  unfold clamp01
  rw [max_eq_right h]

/-- C2: with both teams at games = 0 the projection reports a combined
average of 0, an under confidence of 0, and an under classification of
false (at the default thresholds the 0 ≥ UNDER35_PCT_MIN clause fails,
so no false positive is produced). -/
theorem make_projection_zero_games (stats_home stats_away : TeamStats)
    (h2h : Option H2HStats)
    (hh : stats_home.games = 0) (ha : stats_away.games = 0) :
    (make_projection stats_home stats_away h2h).combined_avg_total_goals = 0 ∧
    (make_projection stats_home stats_away h2h).conf_under35 = 0 ∧
    (make_projection stats_home stats_away h2h).under35 = false := by
  have hcat := @combined_avg_total_zero stats_home stats_away hh
  have hok := @under_ok_zero stats_home stats_away hh
  have hbase : conf_under_base stats_home stats_away = 0 := by
    simp [conf_under_base, hh]
  have hboost : conf_under_boosted stats_home stats_away h2h = 0 := by
    simp [conf_under_boosted, hok, hbase]
  refine ⟨?_, ?_, ?_⟩ <;>
    simp [make_projection, hcat, hboost, hok, round2_zero]

/-- Witness for C2 at the all-zero stats records. -/
theorem make_projection_zero_games_witness :
    (make_projection statsZero statsZero none).combined_avg_total_goals = 0 ∧
    (make_projection statsZero statsZero none).conf_under35 = 0 ∧
    (make_projection statsZero statsZero none).under35 = false :=
  make_projection_zero_games statsZero statsZero none rfl rfl

/-- C3: the double-chance classification of make_projection (head-to-head
absent, so Step 3 is observed unmodified): delta at or above the
threshold gives 1X/home with confidence clamp01(0.5 + delta/2), the
mirrored case gives X2/away, otherwise label and side are both null, and
label and side are always null together. -/
theorem make_projection_dc_cases (stats_home stats_away : TeamStats) :
    (DC_THRESHOLD ≤ delta_of stats_home stats_away →
      (make_projection stats_home stats_away none).double_chance = some "1X" ∧
      (make_projection stats_home stats_away none).dc_side = some "home" ∧
      (make_projection stats_home stats_away none).conf_double_chance =
        round2 (clamp01 (1/2 + delta_of stats_home stats_away / 2))) ∧
    (DC_THRESHOLD ≤ -delta_of stats_home stats_away →
      (make_projection stats_home stats_away none).double_chance = some "X2" ∧
      (make_projection stats_home stats_away none).dc_side = some "away" ∧
      (make_projection stats_home stats_away none).conf_double_chance =
        round2 (clamp01 (1/2 + (-delta_of stats_home stats_away) / 2))) ∧
    (¬ DC_THRESHOLD ≤ delta_of stats_home stats_away →
      ¬ DC_THRESHOLD ≤ -delta_of stats_home stats_away →
      (make_projection stats_home stats_away none).double_chance = none ∧
      (make_projection stats_home stats_away none).dc_side = none) ∧
    ((make_projection stats_home stats_away none).double_chance = none ↔
      (make_projection stats_home stats_away none).dc_side = none) := by
  refine ⟨?_, ?_, ?_, ?_⟩
  · intro h
    have hT : (8:ℚ)/10 ≤ delta_of stats_home stats_away := by
      rwa [DC_THRESHOLD] at h
    have hpos : (0:ℚ) ≤ 1/2 + delta_of stats_home stats_away / 2 := by linarith
    refine ⟨?_, ?_, ?_⟩
    · simp [make_projection, dc_label_of, h]
    · simp [make_projection, dc_side_of, h]
    · rw [clamp01_of_nonneg hpos]
      simp [make_projection, dc_conf_boosted_none, dc_conf_of, h]
  · intro h
    have hT : (8:ℚ)/10 ≤ -delta_of stats_home stats_away := by
      rwa [DC_THRESHOLD] at h
    have hno : ¬ DC_THRESHOLD ≤ delta_of stats_home stats_away := by
      rw [DC_THRESHOLD]; intro hc; linarith
    have hpos : (0:ℚ) ≤ 1/2 + (-delta_of stats_home stats_away) / 2 := by linarith
    refine ⟨?_, ?_, ?_⟩
    · simp [make_projection, dc_label_of, h, hno]
    · simp [make_projection, dc_side_of, h, hno]
    · rw [clamp01_of_nonneg hpos]
      simp [make_projection, dc_conf_boosted_none, dc_conf_of, h, hno]
  · intro h1 h2
    constructor <;> simp [make_projection, dc_label_of, dc_side_of, h1, h2]
  · simp only [make_projection]
    unfold dc_label_of dc_side_of
    split_ifs <;> simp

/-- Witness for C3, decisive home branch at scenario-B stats
(delta = 4.9 ≥ 0.8). -/
theorem make_projection_dc_cases_witness :
    (make_projection statsStrongHome statsWeakAway none).double_chance = some "1X" ∧
    (make_projection statsStrongHome statsWeakAway none).dc_side = some "home" ∧
    (make_projection statsStrongHome statsWeakAway none).conf_double_chance =
      round2 (clamp01 (1/2 + delta_of statsStrongHome statsWeakAway / 2)) :=
  (make_projection_dc_cases statsStrongHome statsWeakAway).1 (by
    norm_num [delta_of, home_score_of, away_score_of, statsStrongHome,
      statsWeakAway, DC_THRESHOLD, FORM_WEIGHT, DEF_WEIGHT, HOME_ADV])

/-- C4: the lean fields are always populated — the label is 1X or X2 and
the side home or away; the side is home exactly when delta is
non-negative (including 0); and the lean confidence equals the clamp of
|delta|/2 into [0.10, 0.49] (rounded at the boundary), hence lies in
[0.10, 0.49] and is strictly below 0.5. -/
theorem make_projection_lean_fields (stats_home stats_away : TeamStats)
    (h2h : Option H2HStats) :
    ((make_projection stats_home stats_away h2h).lean_double_chance = "1X" ∨
      (make_projection stats_home stats_away h2h).lean_double_chance = "X2") ∧
    ((make_projection stats_home stats_away h2h).lean_dc_side = "home" ∨
      (make_projection stats_home stats_away h2h).lean_dc_side = "away") ∧
    ((make_projection stats_home stats_away h2h).lean_dc_side = "home" ↔
      0 ≤ delta_of stats_home stats_away) ∧
    (make_projection stats_home stats_away h2h).lean_conf_double_chance =
      round2 (min (49/100) (max (1/10) (|delta_of stats_home stats_away| / 2))) ∧
    1/10 ≤ (make_projection stats_home stats_away h2h).lean_conf_double_chance ∧
    (make_projection stats_home stats_away h2h).lean_conf_double_chance ≤ 49/100 ∧
    (make_projection stats_home stats_away h2h).lean_conf_double_chance < 1/2 := by
  have hv1 : (1:ℚ)/10 ≤
      min (49/100) (max (1/10) (|delta_of stats_home stats_away| / 2)) :=
    le_min (by norm_num) (le_max_left _ _)
  have hv2 : min (49/100) (max (1/10) (|delta_of stats_home stats_away| / 2)) ≤
      49/100 := min_le_left _ _
  have hr1 : (1:ℚ)/10 ≤
      round2 (min (49/100) (max (1/10) (|delta_of stats_home stats_away| / 2))) := by
    calc (1:ℚ)/10 = round2 (1/10) := round2_tenth.symm
      _ ≤ _ := round2_mono hv1
  have hr2 : round2 (min (49/100)
      (max (1/10) (|delta_of stats_home stats_away| / 2))) ≤ 49/100 := by
    calc round2 (min (49/100) (max (1/10) (|delta_of stats_home stats_away| / 2)))
        ≤ round2 (49/100) := round2_mono hv2
      _ = 49/100 := round2_forty_nine
  refine ⟨?_, ?_, ?_, ?_, ?_, ?_, ?_⟩
  · by_cases h : 0 ≤ delta_of stats_home stats_away <;> simp [make_projection, h]
  · by_cases h : 0 ≤ delta_of stats_home stats_away <;> simp [make_projection, h]
  · by_cases h : 0 ≤ delta_of stats_home stats_away <;> simp [make_projection, h]
  · simp [make_projection]
  · simpa [make_projection] using hr1
  · simpa [make_projection] using hr2
  · have hlt : round2 (min (49/100)
        (max (1/10) (|delta_of stats_home stats_away| / 2))) < 1/2 := by linarith
    simpa [make_projection] using hlt

lemma dc_conf_of_nonneg (d : ℚ) : 0 ≤ dc_conf_of d := by
  unfold dc_conf_of DC_THRESHOLD
  split_ifs with h1 h2
  · exact le_min (by norm_num) (by linarith)
  · exact le_min (by norm_num) (by linarith)
  · exact le_refl 0

lemma dc_conf_of_le_one (d : ℚ) : dc_conf_of d ≤ 1 := by
  unfold dc_conf_of
  split_ifs with h1 h2
  · exact min_le_left _ _
  · exact min_le_left _ _
  · norm_num

lemma dc_conf_boosted_le_one {conf : ℚ} (hc : conf ≤ 1) (label : Option String)
    (h2h : Option H2HStats) : dc_conf_boosted label conf h2h ≤ 1 := by
  unfold dc_conf_boosted
  split_ifs
  · exact min_le_left _ _
  · exact min_le_left _ _
  · exact hc

lemma dc_conf_boosted_nonneg {conf : ℚ} (hc : 0 ≤ conf) (label : Option String)
    (h2h : Option H2HStats) : 0 ≤ dc_conf_boosted label conf h2h := by
  unfold dc_conf_boosted H2H_DC_BOOST
  split_ifs
  · exact le_min (by norm_num) (by linarith)
  · exact le_min (by norm_num) (by linarith)
  · exact hc

lemma le_dc_conf_boosted {conf : ℚ} (hc : conf ≤ 1) (label : Option String)
    (h2h : Option H2HStats) : conf ≤ dc_conf_boosted label conf h2h := by
  unfold dc_conf_boosted H2H_DC_BOOST
  split_ifs
  · exact le_min hc (by linarith)
  · exact le_min hc (by linarith)
  · exact le_rfl

/-- C9: the decisive confidence is never missing — it is exactly 0 when
the double-chance label is null, and at least 0.9 (0.5 + DC_THRESHOLD/2
with the default threshold 0.8, boosts only increasing it) whenever the
label fired, so the two cases are separated by the value alone. -/
theorem conf_dc_never_null (stats_home stats_away : TeamStats)
    (h2h : Option H2HStats) :
    ((make_projection stats_home stats_away h2h).double_chance = none →
      (make_projection stats_home stats_away h2h).conf_double_chance = 0) ∧
    ((make_projection stats_home stats_away h2h).double_chance ≠ none →
      9/10 ≤ (make_projection stats_home stats_away h2h).conf_double_chance) := by
  constructor
  · intro h
    have hl : dc_label_of (delta_of stats_home stats_away) = none := by
      simpa [make_projection] using h
    have h1 : ¬ DC_THRESHOLD ≤ delta_of stats_home stats_away := by
      intro hc; simp [dc_label_of, hc] at hl
    have h2 : ¬ DC_THRESHOLD ≤ -delta_of stats_home stats_away := by
      intro hc; simp [dc_label_of, h1, hc] at hl
    simp [make_projection, hl, dc_conf_boosted, dc_conf_of, h1, h2, round2_zero]
  · intro h
    by_cases hc1 : DC_THRESHOLD ≤ delta_of stats_home stats_away
    · have hT : (8:ℚ)/10 ≤ delta_of stats_home stats_away := by
        rwa [DC_THRESHOLD] at hc1
      have hconf : (9:ℚ)/10 ≤ dc_conf_of (delta_of stats_home stats_away) := by
        unfold dc_conf_of
        rw [if_pos hc1]
        exact le_min (by norm_num) (by linarith)
      have hchain : (9:ℚ)/10 ≤ dc_conf_boosted
          (dc_label_of (delta_of stats_home stats_away))
          (dc_conf_of (delta_of stats_home stats_away)) h2h :=
        le_trans hconf (le_dc_conf_boosted (dc_conf_of_le_one _) _ _)
      have hfin : (9:ℚ)/10 ≤ round2 (dc_conf_boosted
          (dc_label_of (delta_of stats_home stats_away))
          (dc_conf_of (delta_of stats_home stats_away)) h2h) := by
        calc (9:ℚ)/10 = round2 (9/10) := round2_nine_tenths.symm
          _ ≤ _ := round2_mono hchain
      simpa [make_projection] using hfin
    · by_cases hc2 : DC_THRESHOLD ≤ -delta_of stats_home stats_away
      · have hT : (8:ℚ)/10 ≤ -delta_of stats_home stats_away := by
          rwa [DC_THRESHOLD] at hc2
        have hconf : (9:ℚ)/10 ≤ dc_conf_of (delta_of stats_home stats_away) := by
          unfold dc_conf_of
          rw [if_neg hc1, if_pos hc2]
          exact le_min (by norm_num) (by linarith)
        have hchain : (9:ℚ)/10 ≤ dc_conf_boosted
            (dc_label_of (delta_of stats_home stats_away))
            (dc_conf_of (delta_of stats_home stats_away)) h2h :=
          le_trans hconf (le_dc_conf_boosted (dc_conf_of_le_one _) _ _)
        have hfin : (9:ℚ)/10 ≤ round2 (dc_conf_boosted
            (dc_label_of (delta_of stats_home stats_away))
            (dc_conf_of (delta_of stats_home stats_away)) h2h) := by
          calc (9:ℚ)/10 = round2 (9/10) := round2_nine_tenths.symm
            _ ≤ _ := round2_mono hchain
        simpa [make_projection] using hfin
      · exfalso
        apply h
        simp [make_projection, dc_label_of, hc1, hc2]

/-- Witness for C9 at zero stats (delta = 0.3, below the threshold): the
label is null and the confidence exactly 0. -/
theorem conf_dc_never_null_witness :
    (make_projection statsZero statsZero none).double_chance = none ∧
    (make_projection statsZero statsZero none).conf_double_chance = 0 := by
  have hlab : (make_projection statsZero statsZero none).double_chance = none := by
    norm_num [make_projection, dc_label_of, delta_of, home_score_of,
      away_score_of, statsZero, DC_THRESHOLD, FORM_WEIGHT, DEF_WEIGHT, HOME_ADV]
  exact ⟨hlab, (conf_dc_never_null statsZero statsZero none).1 hlab⟩

lemma conf_under_base_mem (sh sa : TeamStats) :
    0 ≤ conf_under_base sh sa ∧ conf_under_base sh sa ≤ 1 := by
  unfold conf_under_base
  split_ifs
  · exact ⟨le_min (by norm_num) (le_max_left _ _), min_le_left _ _⟩
  · norm_num

lemma conf_under_boosted_mem (sh sa : TeamStats) (h2h : Option H2HStats) :
    0 ≤ conf_under_boosted sh sa h2h ∧ conf_under_boosted sh sa h2h ≤ 1 := by
  obtain ⟨h0, h1⟩ := conf_under_base_mem sh sa
  unfold conf_under_boosted H2H_UNDER_BOOST
  split_ifs
  · exact ⟨le_min (by norm_num) (by linarith), min_le_left _ _⟩
  · exact ⟨h0, h1⟩

lemma obv_base_strength_mem (d : ℚ) :
    0 ≤ obv_base_strength d ∧ obv_base_strength d ≤ 1 := by
  unfold obv_base_strength
  exact ⟨le_min (by norm_num) (le_max_left _ _), min_le_left _ _⟩

lemma obv_strength_mem (d : ℚ) (h2h : Option H2HStats) :
    0 ≤ obv_strength d h2h ∧ obv_strength d h2h ≤ 1 := by
  obtain ⟨h0, h1⟩ := obv_base_strength_mem d
  unfold obv_strength
  split_ifs
  · exact ⟨le_min (by norm_num) (by linarith), min_le_left _ _⟩
  · exact ⟨h0, h1⟩

lemma round2_mem_01 {x : ℚ} (h0 : 0 ≤ x) (h1 : x ≤ 1) :
    0 ≤ round2 x ∧ round2 x ≤ 1 := by
  constructor
  · calc (0:ℚ) = round2 0 := round2_zero.symm
      _ ≤ round2 x := round2_mono h0
  · calc round2 x ≤ round2 1 := round2_mono h1
      _ = 1 := round2_one

lemma h2hBoost_iterate_mem {amt x : ℚ} (hamt : 0 ≤ amt) (hx0 : 0 ≤ x)
    (hx1 : x ≤ 1) (n : ℕ) :
    0 ≤ (h2hBoost amt)^[n] x ∧ (h2hBoost amt)^[n] x ≤ 1 := by
  induction n with
  | zero => exact ⟨hx0, hx1⟩
  | succ n ih =>
    rw [Function.iterate_succ_apply']
    obtain ⟨ih0, ih1⟩ := ih
    have hb : h2hBoost amt ((h2hBoost amt)^[n] x) =
        min 1 ((h2hBoost amt)^[n] x + amt) := rfl
    rw [hb]
    exact ⟨le_min (by norm_num) (by linarith), min_le_left _ _⟩

/-- C5: every returned confidence lies in its documented range —
conf_under35 and conf_double_chance in [0, 1], the obvious-game strength
in [0, 1], the lean confidence in [0.10, 0.49] — and the clamped boost
c ↦ min(1, c + amt) keeps a value in [0, 1] for any non-negative amount
and any number of repeated applications. -/
theorem confidence_ranges (stats_home stats_away : TeamStats)
    (h2h : Option H2HStats) (amt x : ℚ) (n : ℕ)
    (hamt : 0 ≤ amt) (hx0 : 0 ≤ x) (hx1 : x ≤ 1) :
    (0 ≤ (make_projection stats_home stats_away h2h).conf_under35 ∧
      (make_projection stats_home stats_away h2h).conf_under35 ≤ 1) ∧
    (0 ≤ (make_projection stats_home stats_away h2h).conf_double_chance ∧
      (make_projection stats_home stats_away h2h).conf_double_chance ≤ 1) ∧
    (0 ≤ (_obv_make_strength stats_home stats_away h2h).2.1 ∧
      (_obv_make_strength stats_home stats_away h2h).2.1 ≤ 1) ∧
    (1/10 ≤ (make_projection stats_home stats_away h2h).lean_conf_double_chance ∧
      (make_projection stats_home stats_away h2h).lean_conf_double_chance ≤ 49/100) ∧
    (0 ≤ (h2hBoost amt)^[n] x ∧ (h2hBoost amt)^[n] x ≤ 1) := by
  refine ⟨?_, ?_, ?_, ?_, h2hBoost_iterate_mem hamt hx0 hx1 n⟩
  · obtain ⟨h0, h1⟩ := conf_under_boosted_mem stats_home stats_away h2h
    simpa [make_projection] using round2_mem_01 h0 h1
  · have h0 := dc_conf_boosted_nonneg
      (dc_conf_of_nonneg (delta_of stats_home stats_away))
      (dc_label_of (delta_of stats_home stats_away)) h2h
    have h1 := dc_conf_boosted_le_one
      (dc_conf_of_le_one (delta_of stats_home stats_away))
      (dc_label_of (delta_of stats_home stats_away)) h2h
    simpa [make_projection] using round2_mem_01 h0 h1
  · obtain ⟨h0, h1⟩ := obv_strength_mem (delta_of stats_home stats_away) h2h
    simpa [_obv_make_strength] using round2_mem_01 h0 h1
  · have hr1 : (1:ℚ)/10 ≤ round2 (min (49/100)
        (max (1/10) (|delta_of stats_home stats_away| / 2))) := by
      calc (1:ℚ)/10 = round2 (1/10) := round2_tenth.symm
        _ ≤ round2 (min (49/100) (max (1/10) (|delta_of stats_home stats_away| / 2))) :=
          round2_mono (le_min (by norm_num) (le_max_left _ _))
    have hr2 : round2 (min (49/100)
        (max (1/10) (|delta_of stats_home stats_away| / 2))) ≤ 49/100 := by
      calc round2 (min (49/100) (max (1/10) (|delta_of stats_home stats_away| / 2)))
          ≤ round2 (49/100) := round2_mono (min_le_left _ _)
        _ = 49/100 := round2_forty_nine
    exact ⟨by simpa [make_projection] using hr1,
      by simpa [make_projection] using hr2⟩

/-- Witness for C5 at concrete stats, amount 0.15, start 0.5, three
boost applications. -/
theorem confidence_ranges_witness :
    (0 ≤ (make_projection statsEven statsEven none).conf_under35 ∧
      (make_projection statsEven statsEven none).conf_under35 ≤ 1) ∧
    (0 ≤ (make_projection statsEven statsEven none).conf_double_chance ∧
      (make_projection statsEven statsEven none).conf_double_chance ≤ 1) ∧
    (0 ≤ (_obv_make_strength statsEven statsEven none).2.1 ∧
      (_obv_make_strength statsEven statsEven none).2.1 ≤ 1) ∧
    (1/10 ≤ (make_projection statsEven statsEven none).lean_conf_double_chance ∧
      (make_projection statsEven statsEven none).lean_conf_double_chance ≤ 49/100) ∧
    (0 ≤ (h2hBoost (15/100))^[3] (1/2) ∧ (h2hBoost (15/100))^[3] (1/2) ≤ 1) :=
  confidence_ranges statsEven statsEven none (15/100) (1/2) 3
    (by norm_num) (by norm_num) (by norm_num)

lemma dc_conf_boosted_mono_conf {c1 c2 : ℚ} (h : c1 ≤ c2)
    (label : Option String) (h2h : Option H2HStats) :
    dc_conf_boosted label c1 h2h ≤ dc_conf_boosted label c2 h2h := by
  unfold dc_conf_boosted
  split_ifs
  · exact min_le_min le_rfl (by linarith)
  · exact min_le_min le_rfl (by linarith)
  · exact h

lemma dc_conf_boosted_none_zero (h2h : Option H2HStats) :
    dc_conf_boosted none 0 h2h = 0 := by
  simp [dc_conf_boosted]

lemma dc_full_mono {d1 d2 : ℚ} (h2h : Option H2HStats)
    (hs : (0 ≤ d1 ∧ d1 ≤ d2) ∨ (d2 ≤ d1 ∧ d1 < 0)) :
    dc_conf_boosted (dc_label_of d1) (dc_conf_of d1) h2h ≤
      dc_conf_boosted (dc_label_of d2) (dc_conf_of d2) h2h := by
  rcases hs with ⟨h0, h12⟩ | ⟨h21, h0⟩
  · by_cases hT1 : DC_THRESHOLD ≤ d1
    · have hT2 : DC_THRESHOLD ≤ d2 := le_trans hT1 h12
      have hlab : dc_label_of d1 = dc_label_of d2 := by
        simp [dc_label_of, hT1, hT2]
      have hconf : dc_conf_of d1 ≤ dc_conf_of d2 := by
        unfold dc_conf_of
        rw [if_pos hT1, if_pos hT2]
        exact min_le_min le_rfl (by linarith)
      rw [hlab]
      exact dc_conf_boosted_mono_conf hconf _ _
    · have hT1' : ¬ DC_THRESHOLD ≤ -d1 := by
        rw [DC_THRESHOLD]
        intro hc
        linarith
      have hlab : dc_label_of d1 = none := by simp [dc_label_of, hT1, hT1']
      have hzero : dc_conf_of d1 = 0 := by simp [dc_conf_of, hT1, hT1']
      rw [hlab, hzero, dc_conf_boosted_none_zero]
      exact dc_conf_boosted_nonneg (dc_conf_of_nonneg d2) _ _
  · by_cases hT1 : DC_THRESHOLD ≤ -d1
    · have hT2 : DC_THRESHOLD ≤ -d2 := by linarith
      have hno1 : ¬ DC_THRESHOLD ≤ d1 := by
        rw [DC_THRESHOLD]
        intro hc
        linarith
      have hno2 : ¬ DC_THRESHOLD ≤ d2 := by
        rw [DC_THRESHOLD]
        intro hc
        linarith
      have hlab : dc_label_of d1 = dc_label_of d2 := by
        simp [dc_label_of, hno1, hno2, hT1, hT2]
      have hconf : dc_conf_of d1 ≤ dc_conf_of d2 := by
        unfold dc_conf_of
        rw [if_neg hno1, if_pos hT1, if_neg hno2, if_pos hT2]
        exact min_le_min le_rfl (by linarith)
      rw [hlab]
      exact dc_conf_boosted_mono_conf hconf _ _
    · have hno1 : ¬ DC_THRESHOLD ≤ d1 := by
        rw [DC_THRESHOLD]
        intro hc
        linarith
      have hlab : dc_label_of d1 = none := by simp [dc_label_of, hno1, hT1]
      have hzero : dc_conf_of d1 = 0 := by simp [dc_conf_of, hno1, hT1]
      rw [hlab, hzero, dc_conf_boosted_none_zero]
      exact dc_conf_boosted_nonneg (dc_conf_of_nonneg d2) _ _

lemma obv_base_strength_mono {d1 d2 : ℚ} (h : |d1| ≤ |d2|) :
    obv_base_strength d1 ≤ obv_base_strength d2 := by
  unfold obv_base_strength
  exact min_le_min le_rfl (max_le_max le_rfl (by linarith))

lemma obv_strength_mono {d1 d2 : ℚ} (h2h : Option H2HStats)
    (hs : (0 ≤ d1 ∧ d1 ≤ d2) ∨ (d2 ≤ d1 ∧ d1 < 0)) :
    obv_strength d1 h2h ≤ obv_strength d2 h2h := by
  have hside : obv_side_of d1 = obv_side_of d2 := by
    rcases hs with ⟨h0, h12⟩ | ⟨h21, h0⟩
    · simp [obv_side_of, h0, le_trans h0 h12]
    · have h1 : ¬ 0 ≤ d1 := not_le.mpr h0
      have h2 : ¬ 0 ≤ d2 := not_le.mpr (lt_of_le_of_lt h21 h0)
      simp [obv_side_of, h1, h2]
  have habs : |d1| ≤ |d2| := by
    rcases hs with ⟨h0, h12⟩ | ⟨h21, h0⟩
    · rw [abs_of_nonneg h0, abs_of_nonneg (le_trans h0 h12)]
      exact h12
    · rw [abs_of_neg h0, abs_of_neg (lt_of_le_of_lt h21 h0)]
      linarith
  have hbase := obv_base_strength_mono habs
  unfold obv_strength
  rw [hside]
  split_ifs
  · exact min_le_min le_rfl (by linarith)
  · exact hbase

/-- C7: holding the sign of delta fixed (a non-negative delta stays
non-negative, a negative delta stays negative) and the head-to-head
record fixed, a larger magnitude of delta never yields a smaller
decisive confidence or a smaller obvious-game strength. -/
theorem monotone_in_abs_delta (sh1 sa1 sh2 sa2 : TeamStats)
    (h2h : Option H2HStats)
    (hs : (0 ≤ delta_of sh1 sa1 ∧ delta_of sh1 sa1 ≤ delta_of sh2 sa2) ∨
          (delta_of sh2 sa2 ≤ delta_of sh1 sa1 ∧ delta_of sh1 sa1 < 0)) :
    (make_projection sh1 sa1 h2h).conf_double_chance ≤
      (make_projection sh2 sa2 h2h).conf_double_chance ∧
    (_obv_make_strength sh1 sa1 h2h).2.1 ≤
      (_obv_make_strength sh2 sa2 h2h).2.1 := by
  constructor
  · have hmono := round2_mono (dc_full_mono h2h hs)
    simpa [make_projection] using hmono
  · have hmono := round2_mono (obv_strength_mono h2h hs)
    simpa [_obv_make_strength] using hmono

/-- Witness for C7: delta grows from 0.3 to 4.9 with the sign fixed
non-negative. -/
theorem monotone_in_abs_delta_witness :
    (make_projection statsEven statsEven none).conf_double_chance ≤
      (make_projection statsStrongHome statsWeakAway none).conf_double_chance ∧
    (_obv_make_strength statsEven statsEven none).2.1 ≤
      (_obv_make_strength statsStrongHome statsWeakAway none).2.1 :=
  monotone_in_abs_delta statsEven statsEven statsStrongHome statsWeakAway none
    (Or.inl (by
      constructor <;>
        norm_num [delta_of, home_score_of, away_score_of, statsEven,
          statsStrongHome, statsWeakAway, FORM_WEIGHT, DEF_WEIGHT, HOME_ADV]))

lemma insertDesc_perm (r : ObviousEntry) (l : List ObviousEntry) :
    (insertDesc r l).Perm (r :: l) := by
  induction l with
  | nil => exact List.Perm.refl _
  | cons x xs ih =>
    unfold insertDesc
    split_ifs with h
    · exact (ih.cons x).trans (List.Perm.swap r x xs)
    · exact List.Perm.refl _

lemma sortByStrengthDesc_perm (l : List ObviousEntry) :
    (sortByStrengthDesc l).Perm l := by
  induction l with
  | nil => exact List.Perm.refl _
  | cons x xs ih =>
    show (insertDesc x (sortByStrengthDesc xs)).Perm (x :: xs)
    exact (insertDesc_perm x _).trans (ih.cons x)

lemma mem_insertDesc {r y : ObviousEntry} {l : List ObviousEntry}
    (h : y ∈ insertDesc r l) : y = r ∨ y ∈ l := by
  have hmem := (insertDesc_perm r l).mem_iff.mp h
  simpa using hmem

lemma insertDesc_sorted (r : ObviousEntry) (l : List ObviousEntry)
    (h : l.Pairwise (fun a b => b.strength ≤ a.strength)) :
    (insertDesc r l).Pairwise (fun a b => b.strength ≤ a.strength) := by
  induction l with
  | nil => simp [insertDesc]
  | cons x xs ih =>
    rcases List.pairwise_cons.mp h with ⟨hx, hxs⟩
    unfold insertDesc
    split_ifs with hlt
    · refine List.pairwise_cons.mpr ⟨?_, ih hxs⟩
      intro y hy
      rcases mem_insertDesc hy with rfl | hy'
      · exact le_of_lt hlt
      · exact hx y hy'
    · refine List.pairwise_cons.mpr ⟨?_, h⟩
      intro y hy
      rcases List.mem_cons.mp hy with rfl | hy'
      · exact not_lt.mp hlt
      · exact le_trans (hx y hy') (not_lt.mp hlt)

lemma sortByStrengthDesc_sorted (l : List ObviousEntry) :
    (sortByStrengthDesc l).Pairwise (fun a b => b.strength ≤ a.strength) := by
  induction l with
  | nil => simp [sortByStrengthDesc]
  | cons x xs ih =>
    show (insertDesc x (sortByStrengthDesc xs)).Pairwise _
    exact insertDesc_sorted x _ ih

lemma insertDesc_filter (r : ObviousEntry) (l : List ObviousEntry) (s : ℚ) :
    (insertDesc r l).filter (fun e => decide (e.strength = s)) =
      if r.strength = s then
        r :: l.filter (fun e => decide (e.strength = s))
      else l.filter (fun e => decide (e.strength = s)) := by
  induction l with
  | nil =>
    by_cases h : r.strength = s <;> simp [insertDesc, h]
  | cons x xs ih =>
    by_cases hlt : r.strength < x.strength
    · rw [show insertDesc r (x :: xs) = x :: insertDesc r xs from by
        simp only [insertDesc]; rw [if_pos hlt]]
      rw [List.filter_cons, ih]
      by_cases hrs : r.strength = s
      · have hxs : ¬ x.strength = s := by
          intro he
          rw [← hrs] at he
          exact absurd he (ne_of_gt hlt)
        simp [hrs, hxs, List.filter_cons]
      · by_cases hxx : x.strength = s <;> simp [hrs, hxx, List.filter_cons]
    · rw [show insertDesc r (x :: xs) = r :: x :: xs from by
        simp only [insertDesc]; rw [if_neg hlt]]
      by_cases hrs : r.strength = s <;> by_cases hxx : x.strength = s <;>
        simp [hrs, hxx, List.filter_cons]

lemma sortByStrengthDesc_filter (l : List ObviousEntry) (s : ℚ) :
    (sortByStrengthDesc l).filter (fun e => decide (e.strength = s)) =
      l.filter (fun e => decide (e.strength = s)) := by
  induction l with
  | nil => rfl
  | cons x xs ih =>
    show (insertDesc x (sortByStrengthDesc xs)).filter _ = _
    rw [insertDesc_filter, List.filter_cons]
    by_cases h : x.strength = s <;> simp [h, ih]

/-- C6: obvious_games_calc keeps exactly the scored rows whose strength
reaches min_strength (a permutation of the filtered candidate list),
sorted by strength descending, with ties stable (for every strength
level the kept rows appear in input order); every input fixture with
valid team ids yields a scored row; and the strength formula is
clamp01(|delta|/2) plus a fixed 0.1 bonus clamped to 1 when the
head-to-head dominance matches the favored side. -/
theorem obvious_games_calc_spec (fetchLast : ℤ → List Fixture)
    (fetchH2H : ℤ → ℤ → List Fixture) (all_fixtures : List DayFixture)
    (min_strength : ℚ)
    (hvalid : ∀ fx ∈ all_fixtures,
      fx.hid ≠ none ∧ fx.hid ≠ some 0 ∧ fx.aid ≠ none ∧ fx.aid ≠ some 0) :
    (obvious_games_calc fetchLast fetchH2H all_fixtures min_strength).Perm
      ((all_fixtures.filterMap (obv_entry fetchLast fetchH2H)).filter
        (fun r => decide (min_strength ≤ r.strength))) ∧
    (obvious_games_calc fetchLast fetchH2H all_fixtures min_strength).Pairwise
      (fun a b => b.strength ≤ a.strength) ∧
    (∀ s : ℚ,
      (obvious_games_calc fetchLast fetchH2H all_fixtures min_strength).filter
          (fun r => decide (r.strength = s)) =
        ((all_fixtures.filterMap (obv_entry fetchLast fetchH2H)).filter
            (fun r => decide (min_strength ≤ r.strength))).filter
          (fun r => decide (r.strength = s))) ∧
    (∀ fx ∈ all_fixtures, (obv_entry fetchLast fetchH2H fx).isSome = true) ∧
    (∀ d : ℚ, ∀ hh : Option H2HStats,
      obv_strength d hh =
        if 0 < h2h_games hh ∧
            ((obv_side_of d = "home" ∧ h2h_dom hh = some "home") ∨
             (obv_side_of d = "away" ∧ h2h_dom hh = some "away")) then
          min 1 (clamp01 (|d| / 2) + 1/10)
        else clamp01 (|d| / 2)) := by
  unfold obvious_games_calc
  refine ⟨?_, ?_, ?_, ?_, ?_⟩
  · exact sortByStrengthDesc_perm _
  · exact sortByStrengthDesc_sorted _
  · intro s
    exact sortByStrengthDesc_filter _ s
  · intro fx hfx
    obtain ⟨h1, h2, h3, h4⟩ := hvalid fx hfx
    rcases hh : fx.hid with _ | i
    · exact absurd hh h1
    rcases ha : fx.aid with _ | j
    · exact absurd ha h3
    have hi : i ≠ 0 := by rintro rfl; exact h2 hh
    have hj : j ≠ 0 := by rintro rfl; exact h4 ha
    simp [obv_entry, hh, ha, hi, hj]
  · intro d hh
    rfl

/-- Witness for C6: one valid fixture, degenerate collaborators, minimum
strength 0. -/
theorem obvious_games_calc_spec_witness :
    (obvious_games_calc noFixtures noH2H [dayFx] 0).Pairwise
      (fun a b => b.strength ≤ a.strength) :=
  (obvious_games_calc_spec noFixtures noH2H [dayFx] 0 (by decide)).2.1

end Goomi
